import Mathlib

/-!
Verification of the orderbook health monitor (src/scraper.py) against its
natural-language specification.  The Python functions are shallowly embedded:
floats become rationals, `None` becomes `Option.none`, the per-symbol health
state dictionary becomes a record, and the hourly main loop becomes an
explicit fold over per-symbol outcomes.
-/

namespace OrderbookMonitor

/-! ### Character-list string helpers

`src/scraper.py` works on Python strings; we embed the operations it uses
(`in`-substring test, `str.replace`, `str.strip`, `str.split`, `str.upper`,
slicing of the last character) as structurally recursive functions on
`List Char` so that the kernel can evaluate them on concrete inputs. -/

/-- Whether `p` is an initial segment of `cs` (used by the substring test). -/
def leadsWith : List Char → List Char → Bool
  | [], _ => true
  | _ :: _, [] => false
  | p :: ps, c :: cs => p == c && leadsWith ps cs

/-- Python's `pat in s` substring test, on character lists. -/
def hasSub (pat : List Char) : List Char → Bool
  | [] => pat.isEmpty
  | c :: cs => leadsWith pat (c :: cs) || hasSub pat cs

/-- Python's `str.strip()`: drop whitespace at both ends. -/
def stripWs (cs : List Char) : List Char :=
  ((cs.dropWhile Char.isWhitespace).reverse.dropWhile Char.isWhitespace).reverse

/-- The value of a list of decimal digit characters, most significant first. -/
def digitsToNat (cs : List Char) : Nat :=
  cs.foldl (fun acc c => acc * 10 + (c.toNat - 48)) 0

/-- Split off a maximal run of leading decimal digits. -/
def takeDigits (cs : List Char) : List Char × List Char :=
  (cs.takeWhile Char.isDigit, cs.dropWhile Char.isDigit)

/-- Exact rational value of a decimal literal given as a sign, integer-part
digits, fractional-part digits and a decimal exponent. -/
def decimalVal (neg : Bool) (ip fp : List Char) (e : Int) : ℚ :=
  (if neg then -1 else 1) *
    ((digitsToNat ip : ℚ) + (digitsToNat fp : ℚ) / (10 : ℚ) ^ fp.length) *
    (10 : ℚ) ^ e

/-- Decimal-notation subset of Python `float()`: optional surrounding
whitespace, optional sign, digits with an optional fractional part and an
optional exponent.  Underscore digit separators and the special values
`inf`/`infinity`/`nan` accepted by Python are not modelled; no token produced
by the scraper uses them. -/
def pyFloat (s : List Char) : Option ℚ :=
  let cs := stripWs s
  let (neg, cs) : Bool × List Char :=
    match cs with
    | '+' :: rest => (false, rest)
    | '-' :: rest => (true, rest)
    | _ => (false, cs)
  let (ip, cs) := takeDigits cs
  let (fp, cs) : List Char × List Char :=
    match cs with
    | '.' :: rest => takeDigits rest
    | _ => ([], cs)
  if ip.isEmpty && fp.isEmpty then none
  else
    match cs with
    | [] => some (decimalVal neg ip fp 0)
    | 'e' :: rest | 'E' :: rest =>
      let (eneg, rest) : Bool × List Char :=
        match rest with
        | '+' :: r => (false, r)
        | '-' :: r => (true, r)
        | _ => (false, rest)
      let (ed, rest) := takeDigits rest
      if ed.isEmpty || !rest.isEmpty then none
      else
        some (decimalVal neg ip fp
          (if eneg then -(digitsToNat ed : Int) else (digitsToNat ed : Int)))
    | _ => none

/-- One attempt of the regex `0\.0\{(\d+)\}(\d+)` anchored at the head of the
list: returns the digit run inside the braces and the digit run after them. -/
def braceMatchAt (cs : List Char) : Option (List Char × List Char) :=
  match cs with
  | '0' :: '.' :: '0' :: '\x7b' :: rest =>
    match takeDigits rest with
    | (n :: ns, rest1) =>
      match rest1 with
      | '\x7d' :: rest2 =>
        match takeDigits rest2 with
        | (d :: ds, _) => some (n :: ns, d :: ds)
        | ([], _) => none
      | _ => none
    | ([], _) => none
  | _ => none

/-- Python `re.search(r"0\.0\{(\d+)\}(\d+)", s)`: leftmost match, scanning
start positions left to right. -/
def braceSearch : List Char → Option (List Char × List Char)
  | [] => none
  | c :: cs =>
    match braceMatchAt (c :: cs) with
    | some r => some r
    | none => braceSearch cs

/-- Last character of a list, if any, uppercased (for `upper().endswith(c)`). -/
def lastUpper (cs : List Char) : Option Char :=
  match cs.getLast? with
  | some c => some c.toUpper
  | none => none

/-! ### Number Normalizer — `parse_number` (scraper.py lines 60-71) -/

/-- `parse_number` from src/scraper.py: `None`/empty or a token containing
`--` is no value; thousands separators are stripped and the token trimmed; a
`0.0{N}D` leading-zeros-count notation is expanded to `0.` + N zeros + D; a
trailing `K`/`M` (case-insensitive) multiplies by 1e3/1e6; the remainder is
parsed as a decimal, any failure yielding no value. -/
def parse_number (value : String) : Option ℚ :=
  if value.data.isEmpty || hasSub ['-', '-'] value.data then none
  else
    let v1 := stripWs (value.data.filter (fun c => c != ','))
    let v2 :=
      if hasSub ['\x7b'] v1 then
        match braceSearch v1 with
        | some (n, d) => '0' :: '.' :: (List.replicate (digitsToNat n) '0' ++ d)
        | none => v1
      else v1
    if lastUpper v2 == some 'K' then (pyFloat v2.dropLast).map (· * 1000)
    else if lastUpper v2 == some 'M' then (pyFloat v2.dropLast).map (· * 1000000)
    else pyFloat v2

/-! ### Orderbook Parser — `parse_orderbook` (scraper.py lines 73-90) -/

/-- Python `text.split("\n")`: split at every newline, keeping empty pieces. -/
def splitNl : List Char → List (List Char)
  | [] => [[]]
  | c :: cs =>
    if c = '\n' then [] :: splitNl cs
    else
      match splitNl cs with
      | [] => [[c]]
      | t :: ts => (c :: t) :: ts

def wsTokensAux (cur : List Char) : List Char → List (List Char)
  | [] => if cur.isEmpty then [] else [cur.reverse]
  | c :: cs =>
    if c.isWhitespace then
      if cur.isEmpty then wsTokensAux [] cs else cur.reverse :: wsTokensAux [] cs
    else wsTokensAux (c :: cur) cs

/-- Python `line.split()`: split on runs of whitespace, dropping empty parts. -/
def wsTokens (cs : List Char) : List (List Char) := wsTokensAux [] cs

/-- One parsed order row, `{"price": p, "amount": a, "total": t}` as built at
scraper.py line 87.  `amount` is always a number when the row is appended
(the guard at line 86), while `price` and `total` may be unresolvable. -/
structure Row where
  price : Option ℚ
  amount : ℚ
  total : Option ℚ
deriving DecidableEq, Repr

/-- Which list a data row is appended to (`side` in `parse_orderbook`). -/
inductive Side
  | asks
  | bids
deriving DecidableEq, Repr

/-- The running state of the line scan in `parse_orderbook`. -/
structure PState where
  asks : List Row
  bids : List Row
  side : Side
  spread_pct : Option ℚ
deriving Repr

/-- `replace('%)', '')`: delete occurrences of `%)`, scanning left to right. -/
def stripPctClose : List Char → List Char
  | '%' :: ')' :: cs => stripPctClose cs
  | c :: cs => c :: stripPctClose cs
  | [] => []

/-- The spread token cleanup of line 82:
`parts[1].replace('(', '').replace('%)', '').replace('+', '')` then `float`. -/
def spreadTokenVal (t : List Char) : Option ℚ :=
  pyFloat ((stripPctClose (t.filter (fun c => c != '('))).filter (fun c => c != '+'))

/-- Append a data row to the currently active side's list (lines 88-89). -/
def appendRow (st : PState) (r : Row) : PState :=
  match st.side with
  | Side.asks => { st with asks := st.asks ++ [r] }
  | Side.bids => { st with bids := st.bids ++ [r] }

def spreadMarker : List Char := ['S', 'p', 'r', 'e', 'a', 'd']

/-- Processing of one line of the snapshot text (loop body, lines 76-89). -/
def parseLine (st : PState) (line : List Char) : PState :=
  if hasSub spreadMarker line then { st with side := Side.bids }
  else
    match wsTokens line with
    | [_t1, t2] =>
      if hasSub ['('] t2 then
        match spreadTokenVal t2 with
        | some q => { st with spread_pct := some q }
        | none => st
      else st
    | [t1, t2, t3] =>
      match parse_number (String.mk t2) with
      | some a =>
        appendRow st
          { price := parse_number (String.mk t1), amount := a,
            total := parse_number (String.mk t3) }
      | none => st
    | _ => st

/-- `parse_orderbook` from src/scraper.py: scan the lines, returning the ask
rows, the bid rows and the observed spread percentage. -/
def parse_orderbook (text : String) : List Row × List Row × Option ℚ :=
  let final := (splitNl text.data).foldl parseLine
    { asks := [], bids := [], side := Side.asks, spread_pct := none }
  (final.asks, final.bids, final.spread_pct)

/-! ### Metrics Engine (scraper.py lines 92-106)

The data frames built from parsed rows may contain rows whose price is
unresolvable (`NaN` in pandas); pandas `min`/`max`/`nsmallest`/`nlargest`
skip such rows and every comparison against them is false, which the
`Option` plumbing below mirrors. -/

/-- The resolvable prices of a list of rows. -/
def validPrices (rows : List Row) : List ℚ := rows.filterMap Row.price

def qmin : List ℚ → Option ℚ
  | [] => none
  | q :: qs =>
    match qmin qs with
    | none => some q
    | some m => some (min q m)

def qmax : List ℚ → Option ℚ
  | [] => none
  | q :: qs =>
    match qmax qs with
    | none => some q
    | some m => some (max q m)

/-- `(bids_df[bids_df['price'] >= lower]['price'] * ...['amount']).sum()`:
rows without a resolvable price fail the comparison and contribute nothing. -/
def bidNotional (lower : ℚ) : List Row → ℚ
  | [] => 0
  | r :: rs =>
    (match r.price with
     | some p => if lower ≤ p then p * r.amount else 0
     | none => 0) + bidNotional lower rs

/-- `(asks_df[asks_df['price'] <= upper]['price'] * ...['amount']).sum()`. -/
def askNotional (upper : ℚ) : List Row → ℚ
  | [] => 0
  | r :: rs =>
    (match r.price with
     | some p => if p ≤ upper then p * r.amount else 0
     | none => 0) + askNotional upper rs

/-- `calculate_liquidity_depth` from src/scraper.py.  When either side has no
resolvable price at all, the pandas mid-price is NaN, both band filters are
everywhere false and the sum is 0, which the catch-all arm mirrors. -/
def calculate_liquidity_depth (asks_df bids_df : List Row) (spread_pct_range : ℚ) : ℚ :=
  if asks_df.isEmpty || bids_df.isEmpty then 0
  else
    match qmin (validPrices asks_df), qmax (validPrices bids_df) with
    | some amin, some bmax =>
      bidNotional ((amin + bmax) / 2 * (1 - spread_pct_range / 100)) bids_df
        + askNotional ((amin + bmax) / 2 * (1 + spread_pct_range / 100)) asks_df
    | _, _ => 0

/-- The priced rows as `(price, amount)` pairs, in encounter order. -/
def priceAmount (rows : List Row) : List (ℚ × ℚ) :=
  rows.filterMap (fun r => r.price.map (fun p => (p, r.amount)))

def insertAsc (x : ℚ × ℚ) : List (ℚ × ℚ) → List (ℚ × ℚ)
  | [] => [x]
  | y :: ys => if x.1 < y.1 then x :: y :: ys else y :: insertAsc x ys

def insertDesc (x : ℚ × ℚ) : List (ℚ × ℚ) → List (ℚ × ℚ)
  | [] => [x]
  | y :: ys => if y.1 < x.1 then x :: y :: ys else y :: insertDesc x ys

/-- pandas `nsmallest(n, 'price')`: the `n` lowest-priced resolvable rows,
ties kept in encounter order. -/
def nsmallestRows (n : Nat) (rows : List Row) : List (ℚ × ℚ) :=
  ((priceAmount rows).foldl (fun acc x => insertAsc x acc) []).take n

/-- pandas `nlargest(n, 'price')`: the `n` highest-priced resolvable rows. -/
def nlargestRows (n : Nat) (rows : List Row) : List (ℚ × ℚ) :=
  ((priceAmount rows).foldl (fun acc x => insertDesc x acc) []).take n

/-- `den` at line 105: the summed amount over the selected subsets. -/
def dwsVolume (asks_df bids_df : List Row) (n : Nat) : ℚ :=
  ((nsmallestRows n asks_df).map Prod.snd).sum
    + ((nlargestRows n bids_df).map Prod.snd).sum

/-- `num` at line 104: the summed absolute amount-weighted deviation. -/
def dwsWeightedDev (mid : ℚ) (a_sub b_sub : List (ℚ × ℚ)) : ℚ :=
  (a_sub.map (fun pa => |pa.2 * (pa.1 - mid)|)).sum
    + (b_sub.map (fun pa => |pa.2 * (mid - pa.1)|)).sum

/-- `calculate_dws` from src/scraper.py.  `none` stands for the two
non-numeric outcomes of the Python code on degenerate inputs: the NaN that
propagates out when one side has no resolvable price while the selected
volume is positive, and the ZeroDivisionError raised when the mid-price is
exactly 0; on every input the claims touch, the result is `some`. -/
def calculate_dws (asks_df bids_df : List Row) (num_levels : Nat) : Option ℚ :=
  if asks_df.isEmpty || bids_df.isEmpty then some 0
  else if 0 < dwsVolume asks_df bids_df num_levels then
    match qmin (validPrices asks_df), qmax (validPrices bids_df) with
    | some amin, some bmax =>
      if amin + bmax = 0 then none
      else
        some (dwsWeightedDev ((amin + bmax) / 2) (nsmallestRows num_levels asks_df)
            (nlargestRows num_levels bids_df)
          / dwsVolume asks_df bids_df num_levels / ((amin + bmax) / 2) * 100)
    | _, _ => none
  else some 0

/-! ### Health Evaluator (scraper.py lines 333-334) -/

/-- `diff = ((curr_spread - target) / target) * 100`. -/
def percent_diff (curr_spread target : ℚ) : ℚ := (curr_spread - target) / target * 100

/-- `is_poor = (diff > 100 or diff < -40)`. -/
def is_poor (curr_spread target : ℚ) : Bool :=
  decide (100 < percent_diff curr_spread target)
    || decide (percent_diff curr_spread target < -40)

/-! ### State Store & Alert Decision Engine (scraper.py lines 340-368)

Timestamps are minutes as rationals; one `now` per evaluation stands for the
`get_nigerian_time()` calls of a single loop iteration. -/

/-- `ALERT_THRESHOLD_CYCLES` (scraper.py line 30). -/
def ALERT_THRESHOLD_CYCLES : Nat := 3

/-- `ALERT_COOLDOWN_MINUTES` (scraper.py line 31). -/
def ALERT_COOLDOWN_MINUTES : ℚ := 30

/-- The per-symbol persisted record
`{"consecutive": n, "last_alert": t?, "start_time": t?}`. -/
structure SymState where
  consecutive : Nat
  last_alert : Option ℚ
  start_time : Option ℚ
deriving DecidableEq, Repr

/-- The zero-state used as the `state.get` default (line 340). -/
def initState : SymState := { consecutive := 0, last_alert := none, start_time := none }

/-- Lines 343-350: increment the strike count and stamp the breach start on a
poor sample; reset everything on a healthy one. -/
def updateHealth (s : SymState) (is_poor_now : Bool) (now : ℚ) : SymState :=
  if is_poor_now then
    { consecutive := s.consecutive + 1,
      last_alert := s.last_alert,
      start_time :=
        match s.start_time with
        | none => some now
        | some t => some t }
  else { consecutive := 0, last_alert := none, start_time := none }

/-- Lines 356-363: the cooldown test; false iff a previous alert exists and
`now - last_alert < ALERT_COOLDOWN_MINUTES`. -/
def cooldownOk (s : SymState) (now : ℚ) : Bool :=
  match s.last_alert with
  | none => true
  | some t => if now - t < ALERT_COOLDOWN_MINUTES then false else true

/-- Lines 355-368: send an alert and stamp `last_alert` when the strike count
reaches the threshold and the cooldown allows it.  The `Bool` reports whether
the alert was sent. -/
def alertGate (s : SymState) (now : ℚ) : SymState × Bool :=
  if ALERT_THRESHOLD_CYCLES ≤ s.consecutive then
    if cooldownOk s now then ({ s with last_alert := some now }, true)
    else (s, false)
  else (s, false)

/-- One successful evaluation of one symbol in the main loop: the state
update followed by the alert gate. -/
def step (s : SymState) (is_poor_now : Bool) (now : ℚ) : SymState × Bool :=
  alertGate (updateHealth s is_poor_now now) now

/-- The state after a sequence of evaluations `(is_poor, now)`. -/
def runState (s : SymState) : List (Bool × ℚ) → SymState
  | [] => s
  | e :: rest => runState (step s e.1 e.2).1 rest

/-- How many alerts a sequence of evaluations sends. -/
def alertsCount (s : SymState) : List (Bool × ℚ) → Nat
  | [] => 0
  | e :: rest => (if (step s e.1 e.2).2 then 1 else 0) + alertsCount (step s e.1 e.2).1 rest

/-- The `HealthEvent` kinds of the specification's event log. -/
inductive EventType
  | ENTERED_WARNING
  | CLEARED_WARNING
  | ALERT_SENT
  | SCRAPE_FAILED
deriving DecidableEq, Repr

/-- Modelled from the spec: the transition events of the Alert Decision
Engine.  `ALERT_SENT` mirrors the alert the code actually sends
(`send_telegram` gated at lines 355-368); `ENTERED_WARNING` and
`CLEARED_WARNING` follow the spec's transition table — src/scraper.py
computes the corresponding `prev_status` (line 341) but never emits these
events, so this part is taken from the spec's words. -/
def stepEvents (s : SymState) (is_poor_now : Bool) (now : ℚ) : List EventType :=
  (if is_poor_now then
    if s.consecutive = 0 then [EventType.ENTERED_WARNING] else []
   else
    if 0 < s.consecutive then [EventType.CLEARED_WARNING] else [])
  ++ (if (step s is_poor_now now).2 then [EventType.ALERT_SENT] else [])

/-- The per-cycle outcome of sample acquisition for one symbol: a parsed
sample evaluated to poor/healthy at a time, or exhaustion of the retry
budget with no successful parse. -/
inductive Outcome
  | success (is_poor_now : Bool) (now : ℚ)
  | failure
deriving Repr

/-- Point update of the persisted state map (`state[symbol] = p_state`). -/
def setSym (st : String → SymState) (sym : String) (v : SymState) : String → SymState :=
  fun x => if x = sym then v else st x

/-- One cycle of the main loop over the listed symbols: a successful sample
feeds `step`; a failed one is logged and skipped, leaving the map untouched
(the `except` path, lines 387-396). -/
def runCycle (st : String → SymState) : List (String × Outcome) → (String → SymState)
  | [] => st
  | (_, Outcome.failure) :: rest => runCycle st rest
  | (sym, Outcome.success p t) :: rest => runCycle (setSym st sym (step (st sym) p t).1) rest

/-! ### Concrete snapshots used as test inputs -/

/-- A one-row ask side whose only amount is 0. -/
def zeroVolAsks : List Row := [{ price := some 1, amount := 0, total := none }]

/-- A one-row bid side whose only amount is 0. -/
def zeroVolBids : List Row := [{ price := some 1, amount := 0, total := none }]

/-- A one-row ask side with positive price and amount. -/
def negAmtAsks : List Row := [{ price := some 10, amount := 1, total := none }]

/-- A bid side containing a row with a negative amount, as `parse_number`
produces for a token like `-5`. -/
def negAmtBids : List Row :=
  [{ price := some 10, amount := 1, total := none },
   { price := some (19 / 2), amount := -5, total := none }]

/-- A snapshot row with nonnegative amount and (when resolvable) price. -/
def rowNonneg (r : Row) : Prop := 0 ≤ r.amount ∧ 0 ≤ r.price.getD 0

instance (r : Row) : Decidable (rowNonneg r) := by unfold rowNonneg; infer_instance

/-- A one-row all-positive ask side. -/
def posAsks : List Row := [{ price := some 2, amount := 1, total := none }]

/-- A one-row all-positive bid side. -/
def posBids : List Row := [{ price := some 1, amount := 3, total := none }]

/-! ## Theorems

One theorem per claim of the specification review, with shared helper
lemmas; counterexamples and witnesses evaluate the embedded code on
concrete inputs. -/

/-- Claim C9: applying its rules in order, the Number Normalizer satisfies
`normalize("1,234.5") = 1234.5`, `normalize("2K") = 2000.0`,
`normalize("3M") = 3000000.0`, `normalize("0.0{6}123") = 0.000000123`, and
`normalize("--")` is no value. -/
theorem claim_C9_normalizer_examples :
    parse_number "1,234.5" = some (1234.5 : ℚ)
      ∧ parse_number "2K" = some 2000
      ∧ parse_number "3M" = some 3000000
      ∧ parse_number "0.0{6}123" = some (0.000000123 : ℚ)
      ∧ parse_number "--" = none := by
  refine ⟨?_, ?_, ?_, ?_, rfl⟩
  · have h : parse_number "1,234.5" = some (decimalVal false ['1','2','3','4'] ['5'] 0) := rfl
    rw [h]
    norm_num [decimalVal, show digitsToNat ['1','2','3','4'] = 1234 from rfl,
      show digitsToNat ['5'] = 5 from rfl]
  · have h : parse_number "2K" = some (decimalVal false ['2'] [] 0 * 1000) := rfl
    rw [h]
    norm_num [decimalVal, show digitsToNat ['2'] = 2 from rfl,
      show digitsToNat ([] : List Char) = 0 from rfl]
  · have h : parse_number "3M" = some (decimalVal false ['3'] [] 0 * 1000000) := rfl
    rw [h]
    norm_num [decimalVal, show digitsToNat ['3'] = 3 from rfl,
      show digitsToNat ([] : List Char) = 0 from rfl]
  · have h : parse_number "0.0{6}123" =
        some (decimalVal false ['0'] ['0','0','0','0','0','0','1','2','3'] 0) := rfl
    rw [h]
    norm_num [decimalVal, show digitsToNat ['0'] = 0 from rfl,
      show digitsToNat ['0','0','0','0','0','0','1','2','3'] = 123 from rfl]

/-- Claim C8: for every `current_spread` and every `target_spread ≠ 0`, the
health evaluation computes `percent_diff = (current − target)/target × 100`
and classifies the sample as poor iff `percent_diff > 100` or
`percent_diff < −40` (the deployed bounds); it is a pure function of these
two inputs with no dependence on history. -/
theorem claim_C8_health_eval (curr target : ℚ) (_h : target ≠ 0) :
    is_poor curr target = true ↔
      (100 < (curr - target) / target * 100 ∨ (curr - target) / target * 100 < -40) := by
  simp [is_poor, percent_diff]

/-- Witness for claim C8 at `(5, 1)`: the deviation is +400%, hence poor. -/
theorem claim_C8_health_eval_witness :
    (1 : ℚ) ≠ 0 ∧ (is_poor 5 1 = true ↔
      (100 < ((5 : ℚ) - 1) / 1 * 100 ∨ ((5 : ℚ) - 1) / 1 * 100 < -40)) :=
  ⟨by norm_num, claim_C8_health_eval 5 1 (by norm_num)⟩

/-- Counterexample to claim C2 as stated: in the single line `"1.5 -- 7"`
the price token resolves to 1.5, yet the row is appended to neither side,
because the guard at scraper.py line 86 tests the AMOUNT token (`a is not
None`), not the price token. -/
theorem claim_C2_cex :
    parse_number "1.5" = some (1.5 : ℚ) ∧ parse_orderbook "1.5 -- 7" = ([], [], none) := by
  constructor
  · have h : parse_number "1.5" = some (decimalVal false ['1'] ['5'] 0) := rfl
    rw [h]
    norm_num [decimalVal, show digitsToNat ['1'] = 1 from rfl, show digitsToNat ['5'] = 5 from rfl]
  · rfl

/-- Claim C2 (amended): for every scan state and every input line with
exactly three whitespace-separated tokens and no `"Spread"` marker, each
token is normalized and the row is appended to the currently active side's
list iff the AMOUNT token is resolvable to a number (price and total may
remain no value); the classification depends only on the token count, not
on marker position elsewhere in the text. -/
theorem claim_C2_three_token_line (st : PState) (line x y z : List Char)
    (hm : hasSub spreadMarker line = false) (ht : wsTokens line = [x, y, z]) :
    parseLine st line =
      match parse_number (String.mk y) with
      | some a =>
        appendRow st
          { price := parse_number (String.mk x), amount := a,
            total := parse_number (String.mk z) }
      | none => st := by
  unfold parseLine
  rw [hm, ht]
  simp

/-- Witness for amended claim C2 on the line `"1 2 3"` from the initial
scan state. -/
theorem claim_C2_three_token_line_witness :
    hasSub spreadMarker "1 2 3".data = false
      ∧ wsTokens "1 2 3".data = [['1'], ['2'], ['3']]
      ∧ parseLine { asks := [], bids := [], side := Side.asks, spread_pct := none } "1 2 3".data =
          (match parse_number (String.mk ['2']) with
          | some a =>
            appendRow { asks := [], bids := [], side := Side.asks, spread_pct := none }
              { price := parse_number (String.mk ['1']), amount := a,
                total := parse_number (String.mk ['3']) }
          | none => { asks := [], bids := [], side := Side.asks, spread_pct := none }) :=
  ⟨rfl, rfl,
    claim_C2_three_token_line { asks := [], bids := [], side := Side.asks, spread_pct := none }
      "1 2 3".data ['1'] ['2'] ['3'] rfl rfl⟩

/-- The alert gate touches only `last_alert`. -/
theorem alertGate_start_count (s : SymState) (now : ℚ) :
    (alertGate s now).1.start_time = s.start_time
      ∧ (alertGate s now).1.consecutive = s.consecutive := by
  unfold alertGate
  split
  · split
    · exact ⟨rfl, rfl⟩
    · exact ⟨rfl, rfl⟩
  · exact ⟨rfl, rfl⟩

/-- The breach-start/count invariant is preserved along any trace. -/
theorem runState_inv_start (tr : List (Bool × ℚ)) :
    ∀ s : SymState, (s.start_time ≠ none ↔ 0 < s.consecutive) →
      ((runState s tr).start_time ≠ none ↔ 0 < (runState s tr).consecutive) := by
  induction tr with
  | nil => exact fun s h => h
  | cons e rest ih =>
    intro s h
    apply ih
    have hg := alertGate_start_count (updateHealth s e.1 e.2) e.2
    show (step s e.1 e.2).1.start_time ≠ none ↔ 0 < (step s e.1 e.2).1.consecutive
    simp only [step]
    rw [hg.1, hg.2]
    cases hp : e.1 with
    | true => cases hs : s.start_time <;> simp [updateHealth, hs]
    | false => simp [updateHealth]

/-- Claim C3: in every symbol state reachable from the zero-state by any
sequence of poor/healthy evaluations, `breach_start_time` is non-null iff
`consecutive_breach_count > 0`. -/
theorem claim_C3_breach_start_iff_count (tr : List (Bool × ℚ)) :
    (runState initState tr).start_time ≠ none ↔ 0 < (runState initState tr).consecutive :=
  runState_inv_start tr initState (by simp [initState])

/-- One evaluation preserves the alert/threshold invariant. -/
theorem step_inv_alert (s : SymState) (p : Bool) (t : ℚ)
    (h : s.last_alert ≠ none → ALERT_THRESHOLD_CYCLES ≤ s.consecutive) :
    (step s p t).1.last_alert ≠ none → ALERT_THRESHOLD_CYCLES ≤ (step s p t).1.consecutive := by
  cases p with
  | false =>
    intro hne
    exfalso
    apply hne
    simp [step, updateHealth, alertGate, ALERT_THRESHOLD_CYCLES]
  | true =>
    simp only [step, updateHealth, if_pos]
    unfold alertGate
    split
    · split
      · intro _; assumption
      · intro hne; exact Nat.le_succ_of_le (h hne)
    · intro hne; exact Nat.le_succ_of_le (h hne)

/-- The alert/threshold invariant along any trace. -/
theorem runState_inv_alert (tr : List (Bool × ℚ)) :
    ∀ s : SymState, (s.last_alert ≠ none → ALERT_THRESHOLD_CYCLES ≤ s.consecutive) →
      ((runState s tr).last_alert ≠ none → ALERT_THRESHOLD_CYCLES ≤ (runState s tr).consecutive) := by
  induction tr with
  | nil => exact fun s h => h
  | cons e rest ih => exact fun s h => ih _ (step_inv_alert s e.1 e.2 h)

/-- Claim C10: in every symbol state reachable from the zero-state, a
non-null `last_alert_time` implies `consecutive_breach_count ≥
ALERT_THRESHOLD_CYCLES`: the stamp is set only when the threshold gate
passes and is cleared together with the count on every healthy evaluation. -/
theorem claim_C10_alert_implies_threshold (tr : List (Bool × ℚ))
    (h : (runState initState tr).last_alert ≠ none) :
    ALERT_THRESHOLD_CYCLES ≤ (runState initState tr).consecutive :=
  runState_inv_alert tr initState (by simp [initState]) h

/-- Witness for claim C10: after three poor evaluations the alert stamp is
set and the count is at the threshold. -/
theorem claim_C10_alert_implies_threshold_witness :
    (runState initState [(true, 0), (true, 0), (true, 0)]).last_alert ≠ none
      ∧ ALERT_THRESHOLD_CYCLES ≤ (runState initState [(true, 0), (true, 0), (true, 0)]).consecutive :=
  ⟨by decide, claim_C10_alert_implies_threshold _ (by decide)⟩

/-- Claim C5: from any BREACHING state (count ≥ 1) a single healthy
evaluation resets the count to 0, nulls `breach_start_time` and
`last_alert_time`, sends no alert, and the (spec-modelled) event log shows
exactly one `CLEARED_WARNING`. -/
theorem claim_C5_clear_transition (s : SymState) (now : ℚ) (h : 1 ≤ s.consecutive) :
    (step s false now).1 = initState
      ∧ (step s false now).2 = false
      ∧ (stepEvents s false now).count EventType.CLEARED_WARNING = 1 := by
  have hstep : step s false now = (initState, false) := by
    simp [step, updateHealth, alertGate, initState, ALERT_THRESHOLD_CYCLES]
  refine ⟨by rw [hstep], by rw [hstep], ?_⟩
  have hpos : 0 < s.consecutive := h
  simp [stepEvents, hstep, hpos]

/-- Witness for claim C5 at the state `⟨2, none, some 0⟩`. -/
theorem claim_C5_clear_transition_witness :
    1 ≤ (SymState.mk 2 none (some 0)).consecutive
      ∧ ((step (SymState.mk 2 none (some 0)) false 5).1 = initState
        ∧ (step (SymState.mk 2 none (some 0)) false 5).2 = false
        ∧ (stepEvents (SymState.mk 2 none (some 0)) false 5).count EventType.CLEARED_WARNING = 1) :=
  ⟨by decide, claim_C5_clear_transition (SymState.mk 2 none (some 0)) 5 (by decide)⟩

/-- Claim C1: from the zero-state with threshold 3 and the 30-minute
cooldown, three consecutive poor evaluations send exactly one alert and
stamp the third evaluation's time; a fourth poor evaluation strictly inside
the cooldown window sends no further alert; one more poor evaluation at
least the cooldown after the last alert sends exactly one further alert and
stamps its own time. -/
theorem claim_C1_threshold_and_cooldown (t1 t2 t3 t4 t5 : ℚ)
    (h4 : t4 - t3 < ALERT_COOLDOWN_MINUTES) (h5 : ALERT_COOLDOWN_MINUTES ≤ t5 - t3) :
    alertsCount initState [(true, t1), (true, t2), (true, t3)] = 1
      ∧ (runState initState [(true, t1), (true, t2), (true, t3)]).last_alert = some t3
      ∧ alertsCount initState [(true, t1), (true, t2), (true, t3), (true, t4)] = 1
      ∧ alertsCount initState [(true, t1), (true, t2), (true, t3), (true, t4), (true, t5)] = 2
      ∧ (runState initState
          [(true, t1), (true, t2), (true, t3), (true, t4), (true, t5)]).last_alert = some t5 := by
  have s1 : step initState true t1
      = ({ consecutive := 1, last_alert := none, start_time := some t1 }, false) := by
    simp [step, updateHealth, alertGate, cooldownOk, initState, ALERT_THRESHOLD_CYCLES]
  have s2 : step { consecutive := 1, last_alert := none, start_time := some t1 } true t2
      = ({ consecutive := 2, last_alert := none, start_time := some t1 }, false) := by
    simp [step, updateHealth, alertGate, cooldownOk, ALERT_THRESHOLD_CYCLES]
  have s3 : step { consecutive := 2, last_alert := none, start_time := some t1 } true t3
      = ({ consecutive := 3, last_alert := some t3, start_time := some t1 }, true) := by
    simp [step, updateHealth, alertGate, cooldownOk, ALERT_THRESHOLD_CYCLES]
  have s4 : step { consecutive := 3, last_alert := some t3, start_time := some t1 } true t4
      = ({ consecutive := 4, last_alert := some t3, start_time := some t1 }, false) := by
    simp [step, updateHealth, alertGate, cooldownOk, ALERT_THRESHOLD_CYCLES, h4]
  have s5 : step { consecutive := 4, last_alert := some t3, start_time := some t1 } true t5
      = ({ consecutive := 5, last_alert := some t5, start_time := some t1 }, true) := by
    simp [step, updateHealth, alertGate, cooldownOk, ALERT_THRESHOLD_CYCLES, not_lt.mpr h5]
  refine ⟨?_, ?_, ?_, ?_, ?_⟩ <;>
    simp [alertsCount, runState, s1, s2, s3, s4, s5]

/-- Witness for claim C1 at times 0, 1, 2, 3, 40 (minutes). -/
theorem claim_C1_threshold_and_cooldown_witness :
    ((3 : ℚ) - 2 < ALERT_COOLDOWN_MINUTES ∧ ALERT_COOLDOWN_MINUTES ≤ (40 : ℚ) - 2)
      ∧ (alertsCount initState [(true, 0), (true, 1), (true, 2)] = 1
        ∧ (runState initState [(true, 0), (true, 1), (true, 2)]).last_alert = some 2
        ∧ alertsCount initState [(true, 0), (true, 1), (true, 2), (true, 3)] = 1
        ∧ alertsCount initState [(true, 0), (true, 1), (true, 2), (true, 3), (true, 40)] = 2
        ∧ (runState initState
            [(true, 0), (true, 1), (true, 2), (true, 3), (true, 40)]).last_alert = some 40) :=
  ⟨⟨by norm_num [ALERT_COOLDOWN_MINUTES], by norm_num [ALERT_COOLDOWN_MINUTES]⟩,
    claim_C1_threshold_and_cooldown 0 1 2 3 40
      (by norm_num [ALERT_COOLDOWN_MINUTES]) (by norm_num [ALERT_COOLDOWN_MINUTES])⟩

/-- A failed acquisition entry behaves as if absent from the cycle. -/
theorem runCycle_fail_erased (sym : String) (post : List (String × Outcome)) :
    ∀ (st : String → SymState) (pre : List (String × Outcome)),
      runCycle st (pre ++ (sym, Outcome.failure) :: post) = runCycle st (pre ++ post) := by
  intro st pre
  induction pre generalizing st with
  | nil => rfl
  | cons e rest ih =>
    cases e with
    | mk s o =>
      cases o with
      | failure =>
        show runCycle st (rest ++ (sym, Outcome.failure) :: post) = runCycle st (rest ++ post)
        exact ih st
      | success p t =>
        show runCycle (setSym st s (step (st s) p t).1) (rest ++ (sym, Outcome.failure) :: post)
          = runCycle (setSym st s (step (st s) p t).1) (rest ++ post)
        exact ih _

/-- A symbol with no successful sample keeps its pre-cycle state. -/
theorem runCycle_no_success_fix (sym : String) (l : List (String × Outcome)) :
    ∀ st : String → SymState,
      (∀ p t, (sym, Outcome.success p t) ∈ l → False) → runCycle st l sym = st sym := by
  induction l with
  | nil => exact fun st _ => rfl
  | cons e rest ih =>
    intro st h
    cases e with
    | mk s o =>
      cases o with
      | failure =>
        show runCycle st rest sym = st sym
        exact ih st (fun p t hm => h p t (List.mem_cons_of_mem _ hm))
      | success p t =>
        show runCycle (setSym st s (step (st s) p t).1) rest sym = st sym
        have hne : sym ≠ s := by
          intro he
          exact h p t (by rw [he]; exact List.mem_cons_self _ _)
        rw [ih _ (fun p' t' hm => h p' t' (List.mem_cons_of_mem _ hm))]
        simp [setSym, hne]

/-- Claim C7: a cycle in which symbol X's sample acquisition fails produces
exactly the state map of the same cycle without X's entry — so the other
symbols update normally — and when X has no successful sample in the cycle
its persisted state is identical to its pre-cycle value. -/
theorem claim_C7_failure_isolation (st : String → SymState)
    (pre post : List (String × Outcome)) (sym : String) :
    runCycle st (pre ++ (sym, Outcome.failure) :: post) = runCycle st (pre ++ post)
      ∧ ((∀ p t, (sym, Outcome.success p t) ∈ pre ++ post → False) →
          runCycle st (pre ++ (sym, Outcome.failure) :: post) sym = st sym) := by
  refine ⟨runCycle_fail_erased sym post st pre, fun h => ?_⟩
  rw [runCycle_fail_erased sym post st pre]
  exact runCycle_no_success_fix sym (pre ++ post) st h

/-- Witness for claim C7: a cycle where "B" succeeds and "A" fails leaves
"A" at its pre-cycle state. -/
theorem claim_C7_failure_isolation_witness :
    (runCycle (fun _ => initState) ([("B", Outcome.success true 0)] ++ ("A", Outcome.failure) :: [])
        = runCycle (fun _ => initState) ([("B", Outcome.success true 0)] ++ []))
      ∧ runCycle (fun _ => initState)
          ([("B", Outcome.success true 0)] ++ ("A", Outcome.failure) :: []) "A"
        = (fun _ : String => initState) "A" := by
  have h := claim_C7_failure_isolation (fun _ => initState) [("B", Outcome.success true 0)] [] "A"
  refine ⟨h.1, h.2 ?_⟩
  intro p t hm
  simp only [List.append_nil, List.mem_singleton, Prod.mk.injEq] at hm
  exact absurd hm.1 (by decide)

/-- Counterexample to claim C4 as stated: on a snapshot with both sides
non-empty whose selected top-N volume is 0, `calculate_dws` returns the
number 0 through the `else 0` branch of scraper.py line 106 — not
no value. -/
theorem claim_C4_cex :
    zeroVolAsks ≠ [] ∧ zeroVolBids ≠ [] ∧ dwsVolume zeroVolAsks zeroVolBids 10 = 0
      ∧ calculate_dws zeroVolAsks zeroVolBids 10 = some 0
      ∧ calculate_dws zeroVolAsks zeroVolBids 10 ≠ none := by
  have hv : dwsVolume zeroVolAsks zeroVolBids 10 = 0 := by
    have h0 : dwsVolume zeroVolAsks zeroVolBids 10 = (0 + 0 : ℚ) + (0 + 0) := rfl
    rw [h0]; norm_num
  have hd : calculate_dws zeroVolAsks zeroVolBids 10 = some 0 := by
    unfold calculate_dws
    rw [hv]
    norm_num [zeroVolAsks, zeroVolBids]
  exact ⟨by simp [zeroVolAsks], by simp [zeroVolBids], hv, hd, by rw [hd]; exact Option.some_ne_none 0⟩

/-- Claim C4 (amended): for every snapshot with non-empty ask and bid lists
whose summed top-N volume is 0, `calculate_dws` returns the number 0 rather
than no value. -/
theorem claim_C4_zero_volume_returns_zero (asks_df bids_df : List Row) (n : Nat)
    (ha : asks_df ≠ []) (hb : bids_df ≠ []) (hv : dwsVolume asks_df bids_df n = 0) :
    calculate_dws asks_df bids_df n = some 0 := by
  unfold calculate_dws
  rw [hv]
  have h1 : (asks_df.isEmpty || bids_df.isEmpty) = false := by
    cases asks_df with
    | nil => exact absurd rfl ha
    | cons a as =>
      cases bids_df with
      | nil => exact absurd rfl hb
      | cons b bs => rfl
  rw [h1]
  norm_num

/-- Witness for amended claim C4 on the zero-amount snapshot. -/
theorem claim_C4_zero_volume_returns_zero_witness :
    (zeroVolAsks ≠ [] ∧ zeroVolBids ≠ [] ∧ dwsVolume zeroVolAsks zeroVolBids 10 = 0)
      ∧ calculate_dws zeroVolAsks zeroVolBids 10 = some 0 :=
  ⟨⟨by simp [zeroVolAsks], by simp [zeroVolBids],
      by rw [show dwsVolume zeroVolAsks zeroVolBids 10 = (0 + 0 : ℚ) + (0 + 0) from rfl]
         norm_num⟩,
    claim_C4_zero_volume_returns_zero zeroVolAsks zeroVolBids 10
      (by simp [zeroVolAsks]) (by simp [zeroVolBids])
      (by rw [show dwsVolume zeroVolAsks zeroVolBids 10 = (0 + 0 : ℚ) + (0 + 0) from rfl]
          norm_num)⟩

/-- Counterexample to claim C6 as stated: with a bid row of negative amount
(which `parse_number` produces for a token like `-5`), the liquidity depth
at the wider band 10 is strictly below the depth at band 0 on the same
non-empty snapshot. -/
theorem claim_C6_cex :
    (0 : ℚ) < 10 ∧ negAmtAsks ≠ [] ∧ negAmtBids ≠ []
      ∧ calculate_liquidity_depth negAmtAsks negAmtBids 10
          < calculate_liquidity_depth negAmtAsks negAmtBids 0 := by
  refine ⟨by norm_num, by simp [negAmtAsks], by simp [negAmtBids], ?_⟩
  norm_num [calculate_liquidity_depth, validPrices, negAmtAsks, negAmtBids, qmin, qmax,
    bidNotional, askNotional]

/-- The minimum of a list of nonnegative rationals is nonnegative. -/
theorem qmin_nonneg (l : List ℚ) (hl : ∀ q ∈ l, 0 ≤ q) :
    ∀ m, qmin l = some m → 0 ≤ m := by
  induction l with
  | nil => intro m hm; cases hm
  | cons q qs ih =>
    intro m hm
    unfold qmin at hm
    cases hq : qmin qs with
    | none =>
      rw [hq] at hm
      cases hm
      exact hl q (List.mem_cons_self _ _)
    | some m0 =>
      rw [hq] at hm
      cases hm
      exact le_min (hl q (List.mem_cons_self _ _))
        (ih (fun x hx => hl x (List.mem_cons_of_mem _ hx)) m0 hq)

/-- The maximum of a list of nonnegative rationals is nonnegative. -/
theorem qmax_nonneg (l : List ℚ) (hl : ∀ q ∈ l, 0 ≤ q) :
    ∀ m, qmax l = some m → 0 ≤ m := by
  induction l with
  | nil => intro m hm; cases hm
  | cons q qs ih =>
    intro m hm
    unfold qmax at hm
    cases hq : qmax qs with
    | none =>
      rw [hq] at hm
      cases hm
      exact hl q (List.mem_cons_self _ _)
    | some m0 =>
      rw [hq] at hm
      cases hm
      exact le_trans (hl q (List.mem_cons_self _ _)) (le_max_left _ _)

/-- Resolvable prices of nonnegative rows are nonnegative. -/
theorem validPrices_nonneg (rows : List Row) (hr : ∀ r ∈ rows, rowNonneg r) :
    ∀ q ∈ validPrices rows, 0 ≤ q := by
  intro q hq
  rcases List.mem_filterMap.mp hq with ⟨r, hrm, hrp⟩
  have := (hr r hrm).2
  rwa [hrp] at this

/-- Lowering the bid band bound can only add nonnegative notional. -/
theorem bidNotional_mono (rows : List Row) (lo1 lo2 : ℚ) (h : lo2 ≤ lo1)
    (hr : ∀ r ∈ rows, rowNonneg r) :
    bidNotional lo1 rows ≤ bidNotional lo2 rows := by
  induction rows with
  | nil => exact le_refl 0
  | cons r rs ih =>
    have hr1 := hr r (List.mem_cons_self _ _)
    have ihh := ih (fun x hx => hr x (List.mem_cons_of_mem _ hx))
    unfold bidNotional
    refine add_le_add ?_ ihh
    cases hp : r.price with
    | none => exact le_refl 0
    | some p =>
      have hpnn : 0 ≤ p := by
        have := hr1.2
        rwa [hp] at this
      change (if lo1 ≤ p then p * r.amount else 0) ≤ if lo2 ≤ p then p * r.amount else 0
      by_cases h1 : lo1 ≤ p
      · rw [if_pos h1, if_pos (le_trans h h1)]
      · rw [if_neg h1]
        by_cases h2 : lo2 ≤ p
        · rw [if_pos h2]
          exact mul_nonneg hpnn hr1.1
        · rw [if_neg h2]

/-- Raising the ask band bound can only add nonnegative notional. -/
theorem askNotional_mono (rows : List Row) (up1 up2 : ℚ) (h : up1 ≤ up2)
    (hr : ∀ r ∈ rows, rowNonneg r) :
    askNotional up1 rows ≤ askNotional up2 rows := by
  induction rows with
  | nil => exact le_refl 0
  | cons r rs ih =>
    have hr1 := hr r (List.mem_cons_self _ _)
    have ihh := ih (fun x hx => hr x (List.mem_cons_of_mem _ hx))
    unfold askNotional
    refine add_le_add ?_ ihh
    cases hp : r.price with
    | none => exact le_refl 0
    | some p =>
      have hpnn : 0 ≤ p := by
        have := hr1.2
        rwa [hp] at this
      change (if p ≤ up1 then p * r.amount else 0) ≤ if p ≤ up2 then p * r.amount else 0
      by_cases h1 : p ≤ up1
      · rw [if_pos h1, if_pos (le_trans h1 h)]
      · rw [if_neg h1]
        by_cases h2 : p ≤ up2
        · rw [if_pos h2]
          exact mul_nonneg hpnn hr1.1
        · rw [if_neg h2]

/-- Claim C6 (amended): for every snapshot whose row amounts and resolvable
prices are all nonnegative, and for every pair of band percentages
`B1 < B2`, the liquidity depth at band `B1` is at most the depth at band
`B2` on that same snapshot. -/
theorem claim_C6_depth_monotone (asks_df bids_df : List Row) (B1 B2 : ℚ)
    (ha : ∀ r ∈ asks_df, rowNonneg r) (hb : ∀ r ∈ bids_df, rowNonneg r)
    (hB : B1 < B2) :
    calculate_liquidity_depth asks_df bids_df B1 ≤ calculate_liquidity_depth asks_df bids_df B2 := by
  unfold calculate_liquidity_depth
  cases hE : (asks_df.isEmpty || bids_df.isEmpty) with
  | true => simp
  | false =>
    simp only [Bool.false_eq_true, if_false]
    cases hqa : qmin (validPrices asks_df) with
    | none => simp
    | some amin =>
      cases hqb : qmax (validPrices bids_df) with
      | none => simp
      | some bmax =>
        simp only []
        have hmid : 0 ≤ (amin + bmax) / 2 := by
          have h1 := qmin_nonneg _ (validPrices_nonneg asks_df ha) amin hqa
          have h2 := qmax_nonneg _ (validPrices_nonneg bids_df hb) bmax hqb
          positivity
        refine add_le_add ?_ ?_
        · refine bidNotional_mono _ _ _ ?_ hb
          have : 1 - B2 / 100 ≤ 1 - B1 / 100 := by linarith
          exact mul_le_mul_of_nonneg_left this hmid
        · refine askNotional_mono _ _ _ ?_ ha
          have : 1 + B1 / 100 ≤ 1 + B2 / 100 := by linarith
          exact mul_le_mul_of_nonneg_left this hmid

/-- Witness for amended claim C6 on an all-positive snapshot at bands 0 and
50. -/
theorem claim_C6_depth_monotone_witness :
    ((∀ r ∈ posAsks, rowNonneg r) ∧ (∀ r ∈ posBids, rowNonneg r) ∧ (0 : ℚ) < 50)
      ∧ calculate_liquidity_depth posAsks posBids 0 ≤ calculate_liquidity_depth posAsks posBids 50 :=
  ⟨⟨by decide, by decide, by norm_num⟩,
    claim_C6_depth_monotone posAsks posBids 0 50 (by decide) (by decide) (by norm_num)⟩

end OrderbookMonitor
